import Mathlib

/-!
Shallow embedding of the audamo repository (src/audamo.py and
src/auto_dark_mode.py) for checking the natural-language specification.

The two Python files are embedded in namespaces `Audamo` (audamo.py) and
`ADM` (auto_dark_mode.py).  External capabilities (ipinfo.io geolocation,
timezonefinder, pytz, astral, gsettings invocations, the filesystem and the
clock) are modelled as an explicit `Env` record of functions; every
evaluation function additionally returns the list of external calls it
performed, so that claims about which collaborator is consulted are
statable.  Fallible Python code (raised exceptions) is modelled with
`Except Err`.
-/

/-- Theme enum from both files: `class Theme(str, enum.Enum)` with values
"light" and "dark". -/
inductive Theme where
  | LIGHT
  | DARK
deriving Repr, DecidableEq

/-- The `.value` of the str-enum member: "light" or "dark". -/
def Theme.value : Theme → String
  | .LIGHT => "light"
  | .DARK => "dark"

/-- A Python `datetime.time`-like time of day.  Python compares `time`
values field-lexicographically; for in-range values (minute, second < 60)
that order coincides with comparison of total seconds, which is the order
used here via `Time.toSec`. -/
structure Time where
  hour : Nat
  minute : Nat
  second : Nat
deriving Repr, DecidableEq

/-- Seconds since midnight; carrier of the comparison order on `Time`. -/
def Time.toSec (t : Time) : Nat :=
  t.hour * 3600 + t.minute * 60 + t.second

/-- The decision comparison shared verbatim by audamo.py line 240
(`if sunrise.time() <= now.time() <= sunset.time():` in `set_theme_once`)
and auto_dark_mode.py lines 166 and 204 (`set_theme_from_time`,
`set_theme_from_location`): LIGHT on `sunrise <= now <= sunset`, DARK
otherwise. -/
def chooseTheme (sunrise sunset now : Time) : Theme :=
  if sunrise.toSec ≤ now.toSec ∧ now.toSec ≤ sunset.toSec then Theme.LIGHT else Theme.DARK

/-- Errors raised by the embedded code (Python exceptions / SystemExit). -/
inductive Err where
  /-- `ValueError(f"Invalid mode: ...")`, audamo.py line 56. -/
  | invalidMode (mode : String)
  /-- `ValueError` from `datetime.strptime` or `float` on malformed input. -/
  | parseError
  /-- `SystemExit` from `get_current_location_info` when ipinfo.io fails. -/
  | locationUnavailable
  /-- Exception from the astral sunrise/sunset computation. -/
  | solarError
  /-- `pytz.UnknownTimeZoneError` from `pytz.timezone`. -/
  | badTz
  /-- `subprocess.CalledProcessError` from a failed `gsettings` command. -/
  | cmdFailed
  /-- `FileNotFoundError`: custom script path does not exist. -/
  | scriptNotFound
  /-- `PermissionError`: custom script is not executable. -/
  | scriptNotExec
  /-- `subprocess.CalledProcessError` from the custom script. -/
  | scriptFailed
  /-- Python `UnboundLocalError`: a local variable read before assignment. -/
  | unboundLocal
  /-- Both --light and --dark given: logged and `exit(1)`. -/
  | argsConflict
deriving Repr, DecidableEq

/-- One `gsettings set` invocation, identified by the key it sets and the
value interpolated into the command string. -/
inductive Gsettings where
  | gtkTheme (name : String)
  | wmTheme (name : String)
  | colorScheme (theme : Theme)
  | iconTheme (name : String)
  | cursorTheme (name : String)
deriving Repr, DecidableEq

/-- An observable call to an external collaborator. -/
inductive ExtCall where
  /-- `requests.get("https://ipinfo.io/json")` in `get_current_location_info`. -/
  | geolocate
  /-- `TimezoneFinder().timezone_at(lng, lat)` in `location_to_timezone`. -/
  | tzLookup (lat lon : Int)
  /-- `astral.sun.sun(observer, ...)`; `tz`/`date` are the optional
  `tzinfo`/`date` arguments actually passed (audamo.py passes neither). -/
  | solar (lat lon : Int) (tz : Option String) (date : Option String)
  /-- `subprocess.run` of a `gsettings` command via `run`. -/
  | runCmd (cmd : Gsettings)
  /-- `subprocess.run([script_path, theme])` in `run_custom_script`. -/
  | script (path : String) (theme : Theme)
  /-- `open(path, "w"); f.write(content)`. -/
  | writeFile (path : String) (content : String)
deriving Repr, DecidableEq

/-- astral's `sun` returns datetimes in the `tzinfo` it is given, and in
UTC when no `tzinfo` argument is passed (the `LocationInfo` default
timezone is "UTC").  This function names the timezone in which the
returned sunrise/sunset instants are expressed, as a function of the
`tzinfo` argument of the call. -/
def solarResultTz (tzArg : Option String) : String :=
  tzArg.getD "UTC"

/-- External capabilities consumed by the embedded code.  Each field is a
pure model of one collaborator for a single evaluation instant. -/
structure Env where
  /-- ipinfo.io: latitude, longitude and timezone, or a request failure. -/
  ipinfo : Except Unit (Int × Int × String)
  /-- timezonefinder: timezone string for coordinates. -/
  tzLookup : Int → Int → String
  /-- Whether `pytz.timezone` accepts the string (else it raises). -/
  knownTz : String → Bool
  /-- astral sunrise/sunset: lat, lon, optional tzinfo, optional date;
  yields the time-of-day components of the two returned instants, or an
  astral computation failure. -/
  sun : Int → Int → Option String → Option String → Except Unit (Time × Time)
  /-- Current calendar date in the given timezone (`datetime.now(tz)`). -/
  todayIn : String → String
  /-- `datetime.strptime(s, "%H:%M")`: parsed time (second = 0) or failure. -/
  parseHM : String → Option Time
  /-- Python `float(s)` on a coordinate string, `none` on `ValueError`. -/
  parseCoord : String → Option Int
  /-- `datetime.now().time()`: local time of day. -/
  now : Time
  /-- `datetime.now(tz).time()`: time of day in the given timezone. -/
  nowIn : String → Time
  /-- Whether a `gsettings` invocation exits successfully. -/
  runOk : Gsettings → Bool
  /-- `os.path.expanduser`. -/
  expanduser : String → String
  /-- `os.path.exists` for the custom script path. -/
  scriptExists : String → Bool
  /-- `os.access(path, os.X_OK)` for the custom script path. -/
  scriptCanExec : String → Bool
  /-- Whether the custom script exits with status 0. -/
  scriptOk : String → Theme → Bool

/-- Run a list of gsettings commands in order with `run` (audamo.py lines
151-166 / auto_dark_mode.py lines 101-115): each raises
`CalledProcessError` on failure, which aborts the enclosing `try` block,
so the first failing command stops the sequence. -/
def runSeq (env : Env) : List Gsettings → Except Err Unit × List ExtCall
  | [] => (.ok (), [])
  | c :: rest =>
    if env.runOk c then
      ((runSeq env rest).1, .runCmd c :: (runSeq env rest).2)
    else (.error .cmdFailed, [.runCmd c])

/-- `run_custom_script` (identical in both files): expanduser, existence
check, executability check, then `subprocess.run([script, theme],
check=True)`. -/
def run_custom_script (env : Env) (scriptPath : String) (theme : Theme) :
    Except Err Unit × List ExtCall :=
  let p := env.expanduser scriptPath
  if env.scriptExists p = false then (.error .scriptNotFound, [])
  else if env.scriptCanExec p = false then (.error .scriptNotExec, [])
  else if env.scriptOk p theme then (.ok (), [.script p theme])
  else (.error .scriptFailed, [.script p theme])

namespace Audamo

/-- The `[general]` table of the audamo config.toml. -/
structure GeneralCfg where
  mode : String
  sunrise : String
  sunset : String
  latitude : String
  longitude : String
  customScriptPath : Option String
deriving Repr, DecidableEq

/-- A per-theme settings table (`[light]` / `[dark]`): theme, icon and
cursor names, empty string meaning "skip this setting". -/
structure ThemeCfg where
  theme : String
  icon : String
  cursor : String
deriving Repr, DecidableEq

/-- The parsed audamo configuration dict. -/
structure Config where
  general : GeneralCfg
  light : ThemeCfg
  dark : ThemeCfg
deriving Repr, DecidableEq

/-- `cfg[theme.value]`: the settings table for a theme. -/
def Config.byTheme (cfg : Config) : Theme → ThemeCfg
  | .LIGHT => cfg.light
  | .DARK => cfg.dark

/-- Command-line flags of audamo.py relevant to the decision logic
(--print-config / --list-themes are informational commands that exit
before any evaluation and are out of scope). -/
structure Args where
  light : Bool
  dark : Bool
  daemon : Bool
deriving Repr, DecidableEq

/-- `lat_lon_is_missing` (audamo.py lines 138-148): true when latitude or
longitude is the empty string in the config. -/
def lat_lon_is_missing (cfg : Config) : Bool :=
  cfg.general.latitude == "" || cfg.general.longitude == ""

/-- The sequence of gsettings commands attempted by `set_theme`
(audamo.py lines 185-207) for one settings table: theme commands when the
theme name is nonempty, then the icon command, then the cursor command.
The membership checks against `find_available_themes()` in the source
only emit `logger.warning` and do not affect which commands run, so they
are erased here along with all other logging. -/
def settingCmds (d : ThemeCfg) (theme : Theme) : List Gsettings :=
  (if d.theme ≠ "" then [.gtkTheme d.theme, .wmTheme d.theme, .colorScheme theme] else []) ++
  (if d.icon ≠ "" then [.iconTheme d.icon] else []) ++
  (if d.cursor ≠ "" then [.cursorTheme d.cursor] else [])

/-- Path of the marker file written at the end of `set_theme`
(audamo.py line 217). -/
def markerPath : String := "/tmp/audamo_current-theme"

/-- `set_theme` (audamo.py lines 169-218): runs the gsettings commands of
the chosen settings table, then the custom script when configured; any
exception is logged and re-raised, skipping everything after it.  The
marker file write (lines 216-218) sits after the try/except and therefore
happens only when no exception was raised. -/
def set_theme (env : Env) (cfg : Config) (theme : Theme) :
    Except Err Unit × List ExtCall :=
  let d := cfg.byTheme theme
  match runSeq env (settingCmds d theme) with
  | (.error e, calls) => (.error e, calls)
  | (.ok _, calls) =>
    let scriptStep : Except Err Unit × List ExtCall :=
      match cfg.general.customScriptPath with
      | some p => if p ≠ "" then run_custom_script env p theme else (.ok (), [])
      | none => (.ok (), [])
    match scriptStep with
    | (.error e, calls2) => (.error e, calls ++ calls2)
    | (.ok _, calls2) =>
      (.ok (), calls ++ calls2 ++ [.writeFile markerPath theme.value])

/-- `get_sunrise_sunset_from_config` (audamo.py lines 96-114):
`strptime` of the two "HH:MM" config strings; `ValueError` is logged and
re-raised. -/
def get_sunrise_sunset_from_config (env : Env) (cfg : Config) :
    Except Err (Time × Time) :=
  match env.parseHM cfg.general.sunrise, env.parseHM cfg.general.sunset with
  | some sunrise, some sunset => .ok (sunrise, sunset)
  | _, _ => .error .parseError

/-- `get_sunrise_sunset_from_location` (audamo.py lines 65-93): when the
config lat/lon is missing, fetch coordinates from ipinfo.io (the returned
timezone is not requested by this file); otherwise `float` the config
strings.  Then `LocationInfo(latitude, longitude)` — with no timezone, so
the default "UTC" — and `sun(city.observer)` with no date and no tzinfo
argument.  Exceptions are logged and re-raised. -/
def get_sunrise_sunset_from_location (env : Env) (cfg : Config) :
    Except Err (Time × Time) × List ExtCall :=
  if lat_lon_is_missing cfg then
    match env.ipinfo with
    | .error _ => (.error .locationUnavailable, [.geolocate])
    | .ok (lat, lon, _tz) =>
      match env.sun lat lon none none with
      | .ok w => (.ok w, [.geolocate, .solar lat lon none none])
      | .error _ => (.error .solarError, [.geolocate, .solar lat lon none none])
  else
    match env.parseCoord cfg.general.latitude, env.parseCoord cfg.general.longitude with
    | some lat, some lon =>
      match env.sun lat lon none none with
      | .ok w => (.ok w, [.solar lat lon none none])
      | .error _ => (.error .solarError, [.solar lat lon none none])
    | _, _ => (.error .parseError, [])

/-- `get_sunrise_sunset` (audamo.py lines 34-62): dispatch on the mode
string (the str-enum comparison `cfg["general"]["mode"] == Mode.TIME`
is string equality with "time"); any other value raises `ValueError`.
The window is then rebuilt for today via `now.replace(hour=..,
minute=.., second=0, microsecond=0)`, keeping only hour and minute. -/
def get_sunrise_sunset (env : Env) (cfg : Config) :
    Except Err (Time × Time) × List ExtCall :=
  let base : Except Err (Time × Time) × List ExtCall :=
    if cfg.general.mode = "time" then
      (get_sunrise_sunset_from_config env cfg, [])
    else if cfg.general.mode = "location" then
      get_sunrise_sunset_from_location env cfg
    else (.error (.invalidMode cfg.general.mode), [])
  match base with
  | (.ok (sunrise, sunset), calls) =>
    (.ok (⟨sunrise.hour, sunrise.minute, 0⟩, ⟨sunset.hour, sunset.minute, 0⟩), calls)
  | e => e

/-- `set_theme_once` (audamo.py lines 221-245): compute the window, then
compare time-of-day values inclusively on both ends and apply LIGHT
inside the window, DARK outside.  The middle component records the theme
passed to `set_theme`, `none` when no application was attempted. -/
def set_theme_once (env : Env) (cfg : Config) :
    Except Err Unit × Option Theme × List ExtCall :=
  match get_sunrise_sunset env cfg with
  | (.error e, calls) => (.error e, none, calls)
  | (.ok (sunrise, sunset), calls) =>
    let t := chooseTheme sunrise sunset env.now
    let (r, calls2) := set_theme env cfg t
    (r, some t, calls ++ calls2)

/-- Result of one non-daemon invocation of `main`. -/
structure MainOut where
  /-- The theme passed to `set_theme`, if any application was attempted. -/
  applied : Option Theme
  /-- External calls performed. -/
  calls : List ExtCall
  /-- Overall outcome. -/
  result : Except Err Unit
  /-- Whether control was transferred to `run_as_daemon` (modelled
  separately; `main` itself performs no further calls in that case). -/
  daemonEntered : Bool
deriving Repr

/-- `main` (audamo.py lines 410-443), after the informational
print-config and list-themes commands: the conflicting-flags check exits
with status 1; then --light / --dark short-circuit directly to
`set_theme`; otherwise --daemon enters `run_as_daemon`, else
`set_theme_once` runs once.  `cfg` is the configuration already loaded by
`load_config(args.config)`. -/
def main (env : Env) (args : Args) (cfg : Config) : MainOut :=
  if args.light && args.dark then ⟨none, [], .error .argsConflict, false⟩
  else if args.light then
    let (r, calls) := set_theme env cfg .LIGHT
    ⟨some .LIGHT, calls, r, false⟩
  else if args.dark then
    let (r, calls) := set_theme env cfg .DARK
    ⟨some .DARK, calls, r, false⟩
  else if args.daemon then ⟨none, [], .ok (), true⟩
  else
    let (r, t, calls) := set_theme_once env cfg
    ⟨t, calls, r, false⟩

end Audamo

namespace ADM

/-- The flat auto_dark_mode config.toml dict. -/
structure Config where
  mode : String
  sunrise : String
  sunset : String
  latitude : String
  longitude : String
  gtkThemeDark : String
  gtkThemeLight : String
  customScriptPath : Option String
deriving Repr, DecidableEq

/-- Command-line arguments of auto_dark_mode.py used by the decision
logic: force flags, a pre-parsed --time SUNRISE SUNSET window, a
pre-parsed --location LAT LON pair, and the daemon flag. -/
structure Args where
  light : Bool
  dark : Bool
  time : Option (Time × Time)
  location : Option (Int × Int)
  daemon : Bool
deriving Repr, DecidableEq

/-- `location_to_timezone` (auto_dark_mode.py lines 38-52): the
timezonefinder lookup for the coordinates. -/
def location_to_timezone (env : Env) (latitude longitude : Int) :
    String × List ExtCall :=
  (env.tzLookup latitude longitude, [.tzLookup latitude longitude])

/-- The gtk theme name chosen by `set_theme` (auto_dark_mode.py lines
132-141): the dark or light name from the config. -/
def themeName (theme : Theme) (config : Config) : String :=
  match theme with
  | .DARK => config.gtkThemeDark
  | .LIGHT => config.gtkThemeLight

/-- `set_theme` (auto_dark_mode.py lines 118-150): the three gsettings
commands for the chosen theme name (no emptiness checks and no icon or
cursor steps in this file), then the custom script when configured; any
exception is logged and re-raised.  No marker file is written anywhere in
this function. -/
def set_theme (env : Env) (theme : Theme) (config : Config) :
    Except Err Unit × List ExtCall :=
  let name := themeName theme config
  match runSeq env [.gtkTheme name, .wmTheme name, .colorScheme theme] with
  | (.error e, calls) => (.error e, calls)
  | (.ok _, calls) =>
    match config.customScriptPath with
    | some p =>
      if p ≠ "" then
        match run_custom_script env p theme with
        | (.error e, calls2) => (.error e, calls ++ calls2)
        | (.ok _, calls2) => (.ok (), calls ++ calls2)
      else (.ok (), calls)
    | none => (.ok (), calls)

/-- `set_theme_from_time` (auto_dark_mode.py lines 153-171): the window
comes from the --time override when present, else from `strptime` of the
config strings; then the shared inclusive time-of-day comparison against
`datetime.now().time()` decides the theme. -/
def set_theme_from_time (env : Env) (args : Args) (config : Config) :
    Except Err Unit × Option Theme × List ExtCall :=
  let win : Except Err (Time × Time) :=
    match args.time with
    | some w => .ok w
    | none =>
      match env.parseHM config.sunrise, env.parseHM config.sunset with
      | some sunrise, some sunset => .ok (sunrise, sunset)
      | _, _ => .error .parseError
  match win with
  | .error e => (.error e, none, [])
  | .ok (sunrise, sunset) =>
    let t := chooseTheme sunrise sunset env.now
    let (r, calls) := set_theme env t config
    (r, some t, calls)

/-- The location-resolution prefix of `set_theme_from_location`
(auto_dark_mode.py lines 175-186): --location coordinates with a
timezonefinder lookup when present; else the config coordinates (both
nonempty) with a timezonefinder lookup; else the ipinfo.io fetch, which
supplies the timezone itself. -/
def resolve_location (env : Env) (args : Args) (config : Config) :
    Except Err (Int × Int × String) × List ExtCall :=
  match args.location with
  | some (lat, lon) =>
    let (tz, calls) := location_to_timezone env lat lon
    (.ok (lat, lon, tz), calls)
  | none =>
    if config.latitude ≠ "" ∧ config.longitude ≠ "" then
      match env.parseCoord config.latitude, env.parseCoord config.longitude with
      | some lat, some lon =>
        let (tz, calls) := location_to_timezone env lat lon
        (.ok (lat, lon, tz), calls)
      | _, _ => (.error .parseError, [])
    else
      match env.ipinfo with
      | .ok (lat, lon, tz) => (.ok (lat, lon, tz), [.geolocate])
      | .error _ => (.error .locationUnavailable, [.geolocate])

/-- `get_sunrise_sunset` (auto_dark_mode.py lines 76-98):
`pytz.timezone(timezone_str)`, then `sun(city.observer,
date=datetime.now(timezone), tzinfo=timezone)` — the astral call receives
both the timezone and the current date in that timezone, so its results
are expressed in it; exceptions are logged and re-raised. -/
def get_sunrise_sunset (env : Env) (lat lon : Int) (tzStr : String) :
    Except Err (Time × Time) × List ExtCall :=
  if env.knownTz tzStr then
    let d := env.todayIn tzStr
    match env.sun lat lon (some tzStr) (some d) with
    | .ok w => (.ok w, [.solar lat lon (some tzStr) (some d)])
    | .error _ => (.error .solarError, [.solar lat lon (some tzStr) (some d)])
  else (.error .badTz, [])

/-- `set_theme_from_location` (auto_dark_mode.py lines 174-209): resolve
the location per `resolve_location`, take `pytz.timezone(timezone_str)`
(line 189, raising on an unknown string), compute the window via
`get_sunrise_sunset`, read `datetime.now(timezone)` and compare
time-of-day values with the shared inclusive rule. -/
def set_theme_from_location (env : Env) (args : Args) (config : Config) :
    Except Err Unit × Option Theme × List ExtCall :=
  match resolve_location env args config with
  | (.error e, calls) => (.error e, none, calls)
  | (.ok (lat, lon, tzStr), calls) =>
    if env.knownTz tzStr then
      match get_sunrise_sunset env lat lon tzStr with
      | (.error e, calls2) => (.error e, none, calls ++ calls2)
      | (.ok (sunrise, sunset), calls2) =>
        let t := chooseTheme sunrise sunset (env.nowIn tzStr)
        let (r, calls3) := set_theme env t config
        (r, some t, calls ++ calls2 ++ calls3)
    else (.error .badTz, none, calls)

/-- `set_theme_once` (auto_dark_mode.py lines 276-291): force flags
first, then the --time and --location overrides, then the config mode.
When no branch matches — in particular when the mode string is neither
"time" nor "location" and no override is given — the function body ends
and Python returns None: no error, no decision, no call. -/
def set_theme_once (env : Env) (args : Args) (config : Config) :
    Except Err Unit × Option Theme × List ExtCall :=
  if args.light then
    let (r, calls) := set_theme env .LIGHT config
    (r, some .LIGHT, calls)
  else if args.dark then
    let (r, calls) := set_theme env .DARK config
    (r, some .DARK, calls)
  else if args.time.isSome then set_theme_from_time env args config
  else if args.location.isSome then set_theme_from_location env args config
  else if config.mode = "time" then set_theme_from_time env args config
  else if config.mode = "location" then set_theme_from_location env args config
  else (.ok (), none, [])

end ADM

/-- One observable step of a daemon loop run. -/
inductive DEvent where
  /-- `load_config(None)` at the start of tick `k` (audamo.py only). -/
  | reload (k : Nat)
  /-- `set_theme_once` at tick `k`; the payload is the theme passed to
  the applier during that tick, `none` when no application happened. -/
  | tick (k : Nat) (applied : Option Theme)
  /-- `sleep(seconds)`. -/
  | sleep (seconds : Nat)
deriving Repr, DecidableEq

/-- How a (fuel-bounded) daemon run ended. -/
inductive DaemonOutcome where
  /-- The fuel ran out with the loop still iterating normally; `k` is the
  next tick index. -/
  | running (k : Nat)
  /-- An exception other than KeyboardInterrupt escaped the `while` loop
  at tick `k` and terminated the process (only KeyboardInterrupt is
  caught by either file's `run_as_daemon`). -/
  | crashed (k : Nat) (e : Err)
  /-- KeyboardInterrupt during tick `k`: caught, logged, `exit(0)`. -/
  | interrupted (k : Nat)
deriving Repr, DecidableEq

/-- The statement `sleep_seconds += 60 * 10` (audamo.py line 344) as
Python executes it: `sleep_seconds` is a function-local variable of
`run_as_daemon` with no prior assignment anywhere in the function, so the
augmented assignment reads an unbound local and raises
`UnboundLocalError`; with a bound value it would add 600 seconds. -/
def bumpSleepSeconds : Option Nat → Except Err Nat
  | none => .error .unboundLocal
  | some s => .ok (s + 600)

namespace Audamo

/-- `run_as_daemon` (audamo.py lines 329-351), run for at most `fuel`
iterations starting at tick index `k` with the local `sleep_seconds` in
state `ss` (initially unassigned, i.e. `none`).  Each iteration: reload
the configuration with `load_config(None)` — always the default path,
modelled by `cfgDisk k`, the content of that file at tick `k` — then
`set_theme_once`, then `sleep_seconds += 60 * 10`, then
`sleep(sleep_seconds)`.  Only `KeyboardInterrupt` (modelled as arriving
during the sleep of tick `k` when `intr k` is true) is caught; every
other exception escapes the loop. -/
def run_as_daemon (envs : Nat → Env) (cfgDisk : Nat → Config) (intr : Nat → Bool) :
    Option Nat → Nat → Nat → List DEvent × DaemonOutcome
  | _, k, 0 => ([], .running k)
  | ss, k, fuel + 1 =>
    let cfg := cfgDisk k
    match set_theme_once (envs k) cfg with
    | (.error e, applied, _calls) => ([.reload k, .tick k applied], .crashed k e)
    | (.ok _, applied, _calls) =>
      match bumpSleepSeconds ss with
      | .error e => ([.reload k, .tick k applied], .crashed k e)
      | .ok s =>
        if intr k then ([.reload k, .tick k applied, .sleep s], .interrupted k)
        else
          let (evs, out) := run_as_daemon envs cfgDisk intr (some s) (k + 1) fuel
          (.reload k :: .tick k applied :: .sleep s :: evs, out)

end Audamo

namespace ADM

/-- `run_as_daemon` (auto_dark_mode.py lines 294-310), run for at most
`fuel` iterations starting at tick index `k`.  Each iteration:
`set_theme_once(args, config)` with the `config` value loaded once in
`main` — the loop body contains no `load_config` call, so the on-disk
configuration (modelled by `cfgDisk`, the default-path file content per
tick) is never consulted — then `sleep(60 * 10)`.  Only
`KeyboardInterrupt` (modelled as arriving during the sleep of tick `k`
when `intr k` is true) is caught; every other exception escapes. -/
def run_as_daemon (envs : Nat → Env) (cfgDisk : Nat → Config) (intr : Nat → Bool)
    (args : Args) (config : Config) : Nat → Nat → List DEvent × DaemonOutcome
  | k, 0 => ([], .running k)
  | k, fuel + 1 =>
    match set_theme_once (envs k) args config with
    | (.error e, applied, _calls) => ([.tick k applied], .crashed k e)
    | (.ok _, applied, _calls) =>
      if intr k then ([.tick k applied, .sleep 600], .interrupted k)
      else
        let (evs, out) := run_as_daemon envs cfgDisk intr args config (k + 1) fuel
        (.tick k applied :: .sleep 600 :: evs, out)

end ADM

/-- Whether a call is a location-resolver or solar-calculator invocation
(the collaborators that a force override must never reach). -/
def ExtCall.isLocOrSolar : ExtCall → Bool
  | .geolocate => true
  | .tzLookup _ _ => true
  | .solar _ _ _ _ => true
  | .runCmd _ => false
  | .script _ _ => false
  | .writeFile _ _ => false

/-- No geolocation, timezone-lookup or solar call occurs in the list. -/
def noLocSolarCalls (calls : List ExtCall) : Bool :=
  calls.all fun c => !c.isLocOrSolar

/-- The (path, content) of a file write, `none` for other calls. -/
def markerWrite? : ExtCall → Option (String × String)
  | .geolocate => none
  | .tzLookup _ _ => none
  | .solar _ _ _ _ => none
  | .runCmd _ => none
  | .script _ _ => none
  | .writeFile p c => some (p, c)

/-- All file writes performed in a call list, in order. -/
def markerWrites (calls : List ExtCall) : List (String × String) :=
  calls.filterMap markerWrite?

theorem noLocSolarCalls_append (l1 l2 : List ExtCall) :
    noLocSolarCalls (l1 ++ l2) = (noLocSolarCalls l1 && noLocSolarCalls l2) := by
  simp [noLocSolarCalls]

theorem markerWrites_append (l1 l2 : List ExtCall) :
    markerWrites (l1 ++ l2) = markerWrites l1 ++ markerWrites l2 := by
  simp [markerWrites]

theorem runSeq_no_loc_solar (env : Env) (cmds : List Gsettings) :
    noLocSolarCalls (runSeq env cmds).2 = true := by
  induction cmds with
  | nil => rfl
  | cons c rest ih =>
    by_cases h : env.runOk c = true <;>
      simp [runSeq, h, noLocSolarCalls, ExtCall.isLocOrSolar] at ih ⊢ <;> exact ih

theorem runSeq_no_marker (env : Env) (cmds : List Gsettings) :
    markerWrites (runSeq env cmds).2 = [] := by
  induction cmds with
  | nil => rfl
  | cons c rest ih =>
    by_cases h : env.runOk c = true <;>
      simp [runSeq, h, markerWrites, markerWrite?] at ih ⊢ <;> exact ih

theorem run_custom_script_no_loc_solar (env : Env) (p : String) (t : Theme) :
    noLocSolarCalls (run_custom_script env p t).2 = true := by
  simp only [run_custom_script]
  split_ifs <;> rfl

theorem run_custom_script_no_marker (env : Env) (p : String) (t : Theme) :
    markerWrites (run_custom_script env p t).2 = [] := by
  simp only [run_custom_script]
  split_ifs <;> rfl

theorem markerWrites_nil : markerWrites [] = [] := rfl

theorem noLocSolarCalls_nil : noLocSolarCalls [] = true := rfl

theorem markerWrites_writeFile (p c : String) :
    markerWrites [ExtCall.writeFile p c] = [(p, c)] := rfl

theorem noLocSolarCalls_writeFile (p c : String) :
    noLocSolarCalls [ExtCall.writeFile p c] = true := rfl

theorem Audamo.set_theme_cases (env : Env) (cfg : Config) (t : Theme) :
    (∃ e calls, set_theme env cfg t = (.error e, calls) ∧
      markerWrites calls = [] ∧ noLocSolarCalls calls = true) ∨
    (∃ calls, set_theme env cfg t = (.ok (), calls) ∧
      markerWrites calls = [(markerPath, t.value)] ∧ noLocSolarCalls calls = true) := by
  simp only [set_theme]
  rcases hr : runSeq env (settingCmds (cfg.byTheme t) t) with ⟨r, calls⟩
  have hm : markerWrites calls = [] := by
    have h := runSeq_no_marker env (settingCmds (cfg.byTheme t) t)
    rwa [hr] at h
  have hn : noLocSolarCalls calls = true := by
    have h := runSeq_no_loc_solar env (settingCmds (cfg.byTheme t) t)
    rwa [hr] at h
  cases r with
  | error e =>
    left
    exact ⟨e, calls, rfl, hm, hn⟩
  | ok u =>
    cases hp : cfg.general.customScriptPath with
    | none =>
      right
      refine ⟨calls ++ [] ++ [.writeFile markerPath t.value], rfl, ?_, ?_⟩
      · rw [markerWrites_append, markerWrites_append, hm, markerWrites_nil,
          markerWrites_writeFile]
        rfl
      · simp [noLocSolarCalls_append, hn, noLocSolarCalls_nil, noLocSolarCalls_writeFile]
    | some p =>
      by_cases hp2 : p = ""
      · right
        refine ⟨calls ++ [] ++ [.writeFile markerPath t.value], by simp [hp2], ?_, ?_⟩
        · rw [markerWrites_append, markerWrites_append, hm, markerWrites_nil,
            markerWrites_writeFile]
          rfl
        · simp [noLocSolarCalls_append, hn, noLocSolarCalls_nil, noLocSolarCalls_writeFile]
      · rcases hs : run_custom_script env p t with ⟨r2, calls2⟩
        have hm2 : markerWrites calls2 = [] := by
          have h := run_custom_script_no_marker env p t
          rwa [hs] at h
        have hn2 : noLocSolarCalls calls2 = true := by
          have h := run_custom_script_no_loc_solar env p t
          rwa [hs] at h
        cases r2 with
        | error e =>
          left
          refine ⟨e, calls ++ calls2, by simp [hp2, hs], ?_, ?_⟩
          · rw [markerWrites_append, hm, hm2]
            rfl
          · simp [noLocSolarCalls_append, hn, hn2]
        | ok u2 =>
          right
          refine ⟨calls ++ calls2 ++ [.writeFile markerPath t.value],
            by simp [hp2, hs], ?_, ?_⟩
          · rw [markerWrites_append, markerWrites_append, hm, hm2, markerWrites_writeFile]
            rfl
          · simp [noLocSolarCalls_append, hn, hn2, noLocSolarCalls_writeFile]

theorem ADM.set_theme_no_marker_no_loc_solar (env : Env) (t : Theme) (config : Config) :
    markerWrites (set_theme env t config).2 = [] ∧
    noLocSolarCalls (set_theme env t config).2 = true := by
  simp only [set_theme]
  rcases hr : runSeq env [.gtkTheme (themeName t config), .wmTheme (themeName t config),
    .colorScheme t] with ⟨r, calls⟩
  have hm : markerWrites calls = [] := by
    have h := runSeq_no_marker env [.gtkTheme (themeName t config),
      .wmTheme (themeName t config), .colorScheme t]
    rwa [hr] at h
  have hn : noLocSolarCalls calls = true := by
    have h := runSeq_no_loc_solar env [.gtkTheme (themeName t config),
      .wmTheme (themeName t config), .colorScheme t]
    rwa [hr] at h
  cases r with
  | error e => exact ⟨hm, hn⟩
  | ok u =>
    cases hp : config.customScriptPath with
    | none => exact ⟨hm, hn⟩
    | some p =>
      by_cases hp2 : p = ""
      · simp only [hp2]
        simp [hm, hn]
      · rcases hs : run_custom_script env p t with ⟨r2, calls2⟩
        have hm2 : markerWrites calls2 = [] := by
          have h := run_custom_script_no_marker env p t
          rwa [hs] at h
        have hn2 : noLocSolarCalls calls2 = true := by
          have h := run_custom_script_no_loc_solar env p t
          rwa [hs] at h
        cases r2 with
        | error e =>
          constructor
          · simp [hp2, hs, markerWrites_append, hm, hm2]
          · simp [hp2, hs, noLocSolarCalls_append, hn, hn2]
        | ok u2 =>
          constructor
          · simp [hp2, hs, markerWrites_append, hm, hm2]
          · simp [hp2, hs, noLocSolarCalls_append, hn, hn2]

/-- A concrete environment for witnesses and counterexamples: a Berlin
location from every source, all commands and scripts succeeding, local
clock at 12:00:00. -/
def envBase : Env where
  ipinfo := .ok (52, 13, "Europe/Berlin")
  tzLookup := fun _ _ => "Europe/Berlin"
  knownTz := fun _ => true
  sun := fun _ _ _ _ => .ok (⟨6, 30, 0⟩, ⟨20, 0, 0⟩)
  todayIn := fun _ => "2026-10-12"
  parseHM := fun s =>
    if s = "06:00" then some ⟨6, 0, 0⟩
    else if s = "07:00" then some ⟨7, 0, 0⟩
    else if s = "18:00" then some ⟨18, 0, 0⟩
    else none
  parseCoord := fun s =>
    if s = "52.0" then some 52
    else if s = "13.0" then some 13
    else none
  now := ⟨12, 0, 0⟩
  nowIn := fun _ => ⟨12, 0, 0⟩
  runOk := fun _ => true
  expanduser := fun s => s
  scriptExists := fun _ => true
  scriptCanExec := fun _ => true
  scriptOk := fun _ _ => true

/-- A concrete audamo configuration in time mode, 06:00 to 18:00, no
custom script, empty location. -/
def cfgTimeA : Audamo.Config where
  general := ⟨"time", "06:00", "18:00", "", "", none⟩
  light := ⟨"Adwaita", "Papirus", "Breeze"⟩
  dark := ⟨"Adwaita-dark", "Papirus-Dark", "Breeze-Dark"⟩

/-- A concrete audamo configuration in location mode with configured
coordinates. -/
def cfgLocA : Audamo.Config where
  general := ⟨"location", "06:00", "18:00", "52.0", "13.0", none⟩
  light := ⟨"Adwaita", "", ""⟩
  dark := ⟨"Adwaita-dark", "", ""⟩

/-- A concrete auto_dark_mode configuration in time mode, 06:00 to
18:00. -/
def cfgTimeB : ADM.Config where
  mode := "time"
  sunrise := "06:00"
  sunset := "18:00"
  latitude := ""
  longitude := ""
  gtkThemeDark := "Adwaita-dark"
  gtkThemeLight := "Adwaita"
  customScriptPath := none

/-- auto_dark_mode args with nothing set (plain `auto-dark-mode` run). -/
def argsNoneB : ADM.Args where
  light := false
  dark := false
  time := none
  location := none
  daemon := false

/-- A tick schedule that never delivers a KeyboardInterrupt. -/
def intrNever : Nat → Bool := fun _ => false

/-- C1: for every sunrise/sunset window and every current time, once all
three are normalized to time-of-day, the decision comparison used by
`set_theme_once` / `set_theme_from_time` / `set_theme_from_location`
yields LIGHT exactly when `sunrise <= now <= sunset` with both boundaries
inclusive, and DARK otherwise; in particular `now = sunrise` and
`now = sunset` yield LIGHT whenever the window is non-inverted.  The last
two conjuncts tie `chooseTheme` to the decision actually applied by the
two entry points. -/
theorem c1_decision_engine_inclusive :
    (∀ sunrise sunset now : Time,
      (chooseTheme sunrise sunset now = Theme.LIGHT ↔
        (sunrise.toSec ≤ now.toSec ∧ now.toSec ≤ sunset.toSec)) ∧
      (chooseTheme sunrise sunset now = Theme.DARK ↔
        ¬(sunrise.toSec ≤ now.toSec ∧ now.toSec ≤ sunset.toSec))) ∧
    (∀ sunrise sunset : Time, sunrise.toSec ≤ sunset.toSec →
      chooseTheme sunrise sunset sunrise = Theme.LIGHT ∧
      chooseTheme sunrise sunset sunset = Theme.LIGHT) ∧
    (∀ env cfg sunrise sunset calls,
      Audamo.get_sunrise_sunset env cfg = (.ok (sunrise, sunset), calls) →
      (Audamo.set_theme_once env cfg).2.1 = some (chooseTheme sunrise sunset env.now)) ∧
    (∀ env args config w, args.time = some w →
      (ADM.set_theme_from_time env args config).2.1 =
        some (chooseTheme w.1 w.2 env.now)) := by
  refine ⟨?_, ?_, ?_, ?_⟩
  · intro sunrise sunset now
    constructor
    · unfold chooseTheme
      split <;> simp_all
    · unfold chooseTheme
      split <;> simp_all
  · intro sunrise sunset h
    constructor
    · unfold chooseTheme
      rw [if_pos ⟨le_refl _, h⟩]
    · unfold chooseTheme
      rw [if_pos ⟨h, le_refl _⟩]
  · intro env cfg sunrise sunset calls h
    unfold Audamo.set_theme_once
    rw [h]
  · intro env args config w h
    unfold ADM.set_theme_from_time
    rw [h]

/-- Witness for C1 at concrete inputs: the window 06:30 to 20:00 with
now at both boundaries and in between. -/
theorem c1_decision_engine_inclusive_witness :
    chooseTheme ⟨6, 30, 0⟩ ⟨20, 0, 0⟩ ⟨6, 30, 0⟩ = Theme.LIGHT ∧
    chooseTheme ⟨6, 30, 0⟩ ⟨20, 0, 0⟩ ⟨20, 0, 0⟩ = Theme.LIGHT ∧
    (Audamo.set_theme_once envBase cfgTimeA).2.1 =
      some (chooseTheme ⟨6, 0, 0⟩ ⟨18, 0, 0⟩ envBase.now) := by
  refine ⟨?_, ?_, ?_⟩
  · exact (c1_decision_engine_inclusive.2.1 ⟨6, 30, 0⟩ ⟨20, 0, 0⟩ (by decide)).1
  · exact (c1_decision_engine_inclusive.2.1 ⟨6, 30, 0⟩ ⟨20, 0, 0⟩ (by decide)).2
  · exact c1_decision_engine_inclusive.2.2.1 envBase cfgTimeA ⟨6, 0, 0⟩ ⟨18, 0, 0⟩ [] (by rfl)

theorem Audamo.set_theme_no_loc_solar_calls (env : Env) (cfg : Config) (t : Theme) :
    noLocSolarCalls (set_theme env cfg t).2 = true := by
  rcases set_theme_cases env cfg t with ⟨e, calls, h, _, hn⟩ | ⟨calls, h, _, hn⟩ <;>
    rw [h] <;> exact hn

theorem ADM.set_theme_loc_solar_free (env : Env) (t : Theme) (config : Config) :
    noLocSolarCalls (set_theme env t config).2 = true :=
  (set_theme_no_marker_no_loc_solar env t config).2

/-- C2: when exactly one force flag is set, both entry points apply that
theme for every configuration whatsoever, and no geolocation, timezone
lookup or solar computation occurs in the evaluation. -/
theorem c2_force_override_short_circuits :
    (∀ env args cfg, (args : Audamo.Args).light = true → args.dark = false →
      (Audamo.main env args cfg).applied = some Theme.LIGHT ∧
      noLocSolarCalls (Audamo.main env args cfg).calls = true) ∧
    (∀ env args cfg, (args : Audamo.Args).dark = true → args.light = false →
      (Audamo.main env args cfg).applied = some Theme.DARK ∧
      noLocSolarCalls (Audamo.main env args cfg).calls = true) ∧
    (∀ env args config, (args : ADM.Args).light = true → args.dark = false →
      (ADM.set_theme_once env args config).2.1 = some Theme.LIGHT ∧
      noLocSolarCalls (ADM.set_theme_once env args config).2.2 = true) ∧
    (∀ env args config, (args : ADM.Args).dark = true → args.light = false →
      (ADM.set_theme_once env args config).2.1 = some Theme.DARK ∧
      noLocSolarCalls (ADM.set_theme_once env args config).2.2 = true) := by
  refine ⟨?_, ?_, ?_, ?_⟩
  · intro env args cfg hl hd
    have hn := Audamo.set_theme_no_loc_solar_calls env cfg .LIGHT
    rcases hst : Audamo.set_theme env cfg .LIGHT with ⟨r, calls⟩
    rw [hst] at hn
    constructor
    · simp [Audamo.main, hl, hd, hst]
    · simp [Audamo.main, hl, hd, hst, hn]
  · intro env args cfg hd hl
    have hn := Audamo.set_theme_no_loc_solar_calls env cfg .DARK
    rcases hst : Audamo.set_theme env cfg .DARK with ⟨r, calls⟩
    rw [hst] at hn
    constructor
    · simp [Audamo.main, hl, hd, hst]
    · simp [Audamo.main, hl, hd, hst, hn]
  · intro env args config hl hd
    have hn := ADM.set_theme_loc_solar_free env .LIGHT config
    rcases hst : ADM.set_theme env .LIGHT config with ⟨r, calls⟩
    rw [hst] at hn
    constructor
    · simp [ADM.set_theme_once, hl, hst]
    · simp [ADM.set_theme_once, hl, hst, hn]
  · intro env args config hd hl
    have hn := ADM.set_theme_loc_solar_free env .DARK config
    rcases hst : ADM.set_theme env .DARK config with ⟨r, calls⟩
    rw [hst] at hn
    constructor
    · simp [ADM.set_theme_once, hl, hd, hst]
    · simp [ADM.set_theme_once, hl, hd, hst, hn]

/-- Witness for C2: with --light set and a location-mode configuration,
audamo applies LIGHT without any location or solar call, and so does
auto_dark_mode. -/
theorem c2_force_override_short_circuits_witness :
    (Audamo.main envBase ⟨true, false, false⟩ cfgLocA).applied = some Theme.LIGHT ∧
    noLocSolarCalls (Audamo.main envBase ⟨true, false, false⟩ cfgLocA).calls = true ∧
    (ADM.set_theme_once envBase ⟨true, false, none, none, false⟩ cfgTimeB).2.1 =
      some Theme.LIGHT := by
  refine ⟨?_, ?_, ?_⟩
  · exact (c2_force_override_short_circuits.1 envBase ⟨true, false, false⟩ cfgLocA rfl rfl).1
  · exact (c2_force_override_short_circuits.1 envBase ⟨true, false, false⟩ cfgLocA rfl rfl).2
  · exact (c2_force_override_short_circuits.2.2.1 envBase
      ⟨true, false, none, none, false⟩ cfgTimeB rfl rfl).1

/-- C3: location resolution precedence.  In auto_dark_mode, explicit
CLI coordinates determine the result with only a timezone lookup (no
geolocation), independently of the config; with no CLI coordinates and
both config fields nonempty, the parsed config coordinates determine the
result (no geolocation); only when neither source is present is the
geolocation capability consulted, and then it alone determines the
result.  In audamo (which has no CLI coordinates), nonempty config
coordinates are used with no geolocation call, and the geolocation call
happens exactly when a config coordinate is missing. -/
theorem c3_location_precedence :
    (∀ env args config lat lon, (args : ADM.Args).location = some (lat, lon) →
      ADM.resolve_location env args config =
        (.ok (lat, lon, env.tzLookup lat lon), [.tzLookup lat lon])) ∧
    (∀ env args config lat lon, (args : ADM.Args).location = none →
      config.latitude ≠ "" → config.longitude ≠ "" →
      env.parseCoord config.latitude = some lat →
      env.parseCoord config.longitude = some lon →
      ADM.resolve_location env args config =
        (.ok (lat, lon, env.tzLookup lat lon), [.tzLookup lat lon])) ∧
    (∀ env args config, ((args : ADM.Args).location ≠ none ∨
        (config.latitude ≠ "" ∧ config.longitude ≠ "")) →
      ExtCall.geolocate ∉ (ADM.resolve_location env args config).2) ∧
    (∀ env args config, (args : ADM.Args).location = none →
      (config.latitude = "" ∨ config.longitude = "") →
      (ADM.resolve_location env args config).2 = [.geolocate] ∧
      (∀ lat lon tz, env.ipinfo = .ok (lat, lon, tz) →
        (ADM.resolve_location env args config).1 = .ok (lat, lon, tz))) ∧
    (∀ env cfg, Audamo.lat_lon_is_missing cfg = false →
      ExtCall.geolocate ∉ (Audamo.get_sunrise_sunset_from_location env cfg).2) ∧
    (∀ env cfg lat lon, Audamo.lat_lon_is_missing cfg = false →
      env.parseCoord cfg.general.latitude = some lat →
      env.parseCoord cfg.general.longitude = some lon →
      ExtCall.solar lat lon none none ∈
        (Audamo.get_sunrise_sunset_from_location env cfg).2) ∧
    (∀ env cfg, Audamo.lat_lon_is_missing cfg = true →
      ExtCall.geolocate ∈ (Audamo.get_sunrise_sunset_from_location env cfg).2) := by
  refine ⟨?_, ?_, ?_, ?_, ?_, ?_, ?_⟩
  · intro env args config lat lon h
    unfold ADM.resolve_location
    rw [h]
    simp [ADM.location_to_timezone]
  · intro env args config lat lon h h1 h2 hp1 hp2
    unfold ADM.resolve_location
    rw [h]
    rw [if_pos ⟨h1, h2⟩, hp1, hp2]
    simp [ADM.location_to_timezone]
  · intro env args config h
    unfold ADM.resolve_location ADM.location_to_timezone
    cases hloc : args.location with
    | some p =>
      rcases p with ⟨lat, lon⟩
      simp
    | none =>
      rcases h with h | ⟨h1, h2⟩
      · exact absurd hloc h
      · rw [if_pos ⟨h1, h2⟩]
        cases hp1 : env.parseCoord config.latitude with
        | none => simp [hp1]
        | some lat =>
          cases hp2 : env.parseCoord config.longitude with
          | none => simp [hp1, hp2]
          | some lon => simp [hp1, hp2]
  · intro env args config h hmiss
    have hcond : ¬(config.latitude ≠ "" ∧ config.longitude ≠ "") := by
      rcases hmiss with h1 | h1 <;> simp [h1]
    constructor
    · unfold ADM.resolve_location
      rw [h, if_neg hcond]
      cases hip : env.ipinfo with
      | ok v => rcases v with ⟨lat, ⟨lon, tz⟩⟩; simp
      | error e => simp
    · intro lat lon tz hip
      unfold ADM.resolve_location
      rw [h, if_neg hcond, hip]
  · intro env cfg h
    unfold Audamo.get_sunrise_sunset_from_location
    rw [h]
    simp only [Bool.false_eq_true, if_false]
    split
    · split <;> simp
    · simp
  · intro env cfg lat lon h hp1 hp2
    unfold Audamo.get_sunrise_sunset_from_location
    rw [h]
    simp only [Bool.false_eq_true, if_false]
    rw [hp1, hp2]
    cases hs : env.sun lat lon none none with
    | ok w => simp [hs]
    | error e => simp [hs]
  · intro env cfg h
    unfold Audamo.get_sunrise_sunset_from_location
    rw [h]
    simp only [if_true]
    cases hip : env.ipinfo with
    | ok v =>
      rcases v with ⟨lat, ⟨lon, tz⟩⟩
      cases hs : env.sun lat lon none none with
      | ok w => simp [hs]
      | error e => simp [hs]
    | error e => simp

/-- Witness for C3 at concrete inputs: CLI coordinates beat a configured
location (no geolocation), configured coordinates beat geolocation, and
a missing config coordinate triggers exactly one geolocation call. -/
theorem c3_location_precedence_witness :
    ADM.resolve_location envBase ⟨false, false, none, some (48, 2), false⟩ cfgTimeB =
      (.ok (48, 2, "Europe/Berlin"), [.tzLookup 48 2]) ∧
    ExtCall.geolocate ∉
      (Audamo.get_sunrise_sunset_from_location envBase cfgLocA).2 ∧
    ExtCall.geolocate ∈
      (Audamo.get_sunrise_sunset_from_location envBase cfgTimeA).2 := by
  refine ⟨?_, ?_, ?_⟩
  · exact c3_location_precedence.1 envBase ⟨false, false, none, some (48, 2), false⟩
      cfgTimeB 48 2 rfl
  · exact c3_location_precedence.2.2.2.2.1 envBase cfgLocA rfl
  · exact c3_location_precedence.2.2.2.2.2.2 envBase cfgTimeA rfl

/-- An audamo configuration with theme, icon and cursor all configured
for LIGHT and a custom script set. -/
def cfgFullA : Audamo.Config where
  general := ⟨"time", "06:00", "18:00", "", "", some "/opt/hook.sh"⟩
  light := ⟨"Adwaita", "Papirus", "Breeze"⟩
  dark := ⟨"Adwaita-dark", "Papirus-Dark", "Breeze-Dark"⟩

/-- An environment in which exactly the icon-theme gsettings invocation
fails and everything else succeeds. -/
def envIconFail : Env :=
  { envBase with
    runOk := fun c =>
      match c with
      | .iconTheme _ => false
      | _ => true }

/-- Counterexample to C4: with the icon gsettings invocation failing,
`set_theme` stops at the icon step — the cursor step is never attempted
and the configured custom script is never invoked, contradicting the
claim that a failing apply step does not prevent the remaining steps. -/
theorem c4_counterexample_icon_failure_aborts :
    Audamo.set_theme envIconFail cfgFullA Theme.LIGHT =
      (.error .cmdFailed,
       [.runCmd (.gtkTheme "Adwaita"), .runCmd (.wmTheme "Adwaita"),
        .runCmd (.colorScheme .LIGHT), .runCmd (.iconTheme "Papirus")]) ∧
    ExtCall.runCmd (.cursorTheme "Breeze") ∉
      (Audamo.set_theme envIconFail cfgFullA Theme.LIGHT).2 ∧
    ExtCall.script "/opt/hook.sh" Theme.LIGHT ∉
      (Audamo.set_theme envIconFail cfgFullA Theme.LIGHT).2 := by
  refine ⟨rfl, ?_, ?_⟩ <;> decide

/-- C4 amended: an unknown theme/icon/cursor name only produces a logged
warning and does not block the other steps (the availability checks in
`set_theme` have no effect on control flow), but a failing OS-setting
invocation raises `CalledProcessError`, which aborts every remaining
setting step, skips the custom script and skips the marker write: when
the three theme commands succeed and the icon command fails, the result
is exactly the error with the four attempted commands, whatever the
cursor and script configuration. -/
theorem c4_amended_failing_step_aborts (env : Env) (cfg : Audamo.Config) (t : Theme)
    (h1 : (cfg.byTheme t).theme ≠ "")
    (h2 : (cfg.byTheme t).icon ≠ "")
    (hg : env.runOk (.gtkTheme (cfg.byTheme t).theme) = true)
    (hw : env.runOk (.wmTheme (cfg.byTheme t).theme) = true)
    (hc : env.runOk (.colorScheme t) = true)
    (hi : env.runOk (.iconTheme (cfg.byTheme t).icon) = false) :
    Audamo.set_theme env cfg t =
      (.error .cmdFailed,
       [.runCmd (.gtkTheme (cfg.byTheme t).theme),
        .runCmd (.wmTheme (cfg.byTheme t).theme),
        .runCmd (.colorScheme t),
        .runCmd (.iconTheme (cfg.byTheme t).icon)]) := by
  have hcmds : Audamo.settingCmds (cfg.byTheme t) t =
      [.gtkTheme (cfg.byTheme t).theme, .wmTheme (cfg.byTheme t).theme, .colorScheme t] ++
      [.iconTheme (cfg.byTheme t).icon] ++
      (if (cfg.byTheme t).cursor ≠ "" then [.cursorTheme (cfg.byTheme t).cursor] else []) := by
    unfold Audamo.settingCmds
    rw [if_pos h1, if_pos h2]
  have hrun : runSeq env (Audamo.settingCmds (cfg.byTheme t) t) =
      (.error .cmdFailed,
       [.runCmd (.gtkTheme (cfg.byTheme t).theme),
        .runCmd (.wmTheme (cfg.byTheme t).theme),
        .runCmd (.colorScheme t),
        .runCmd (.iconTheme (cfg.byTheme t).icon)]) := by
    rw [hcmds]
    simp [runSeq, hg, hw, hc, hi]
  simp only [Audamo.set_theme]
  rw [hrun]

/-- Witness for C4's amended statement at the concrete failing
environment and full configuration. -/
theorem c4_amended_failing_step_aborts_witness :
    Audamo.set_theme envIconFail cfgFullA Theme.LIGHT =
      (.error .cmdFailed,
       [.runCmd (.gtkTheme "Adwaita"), .runCmd (.wmTheme "Adwaita"),
        .runCmd (.colorScheme .LIGHT), .runCmd (.iconTheme "Papirus")]) :=
  c4_amended_failing_step_aborts envIconFail cfgFullA Theme.LIGHT
    (by decide) (by decide) rfl rfl rfl rfl

/-- An auto_dark_mode time-mode configuration whose sunrise string does
not parse (strptime raises ValueError). -/
def cfgBadTimeB : ADM.Config := { cfgTimeB with sunrise := "bad" }

/-- Counterexample to C5: a daemon tick raising a fatal error (here an
unparsable sunrise string) terminates the loop at tick 0 — no later tick
runs — although no operator cancellation was delivered; the claim
requires the loop to log and proceed to the next tick. -/
theorem c5_counterexample_tick_error_kills_daemon :
    ADM.run_as_daemon (fun _ => envBase) (fun _ => cfgTimeB) intrNever argsNoneB
        cfgBadTimeB 0 3 =
      ([DEvent.tick 0 none], .crashed 0 .parseError) ∧
    intrNever 0 = false ∧
    (ADM.run_as_daemon (fun _ => envBase) (fun _ => cfgTimeB) intrNever argsNoneB
        cfgBadTimeB 0 3).2 ≠ .running 3 := by
  refine ⟨rfl, rfl, by decide⟩

/-- C5 amended: both daemon loops catch only KeyboardInterrupt (the
operator cancellation): a tick whose evaluation raises any other fatal
error terminates the loop at that tick with the error escaping the
process, instead of proceeding to the next tick; cancellation during the
sleep stops the loop normally. -/
theorem c5_amended_only_interrupt_caught :
    (∀ envs cfgDisk intr args config k fuel e applied calls,
      ADM.set_theme_once (envs k) args config = (.error e, applied, calls) →
      ADM.run_as_daemon envs cfgDisk intr args config k (fuel + 1) =
        ([.tick k applied], .crashed k e)) ∧
    (∀ envs cfgDisk intr ss k fuel e applied calls,
      Audamo.set_theme_once (envs k) (cfgDisk k) = (.error e, applied, calls) →
      Audamo.run_as_daemon envs cfgDisk intr ss k (fuel + 1) =
        ([.reload k, .tick k applied], .crashed k e)) ∧
    (∀ envs cfgDisk intr args config k fuel applied calls,
      ADM.set_theme_once (envs k) args config = (.ok (), applied, calls) →
      intr k = true →
      ADM.run_as_daemon envs cfgDisk intr args config k (fuel + 1) =
        ([.tick k applied, .sleep 600], .interrupted k)) := by
  refine ⟨?_, ?_, ?_⟩
  · intro envs cfgDisk intr args config k fuel e applied calls h
    simp [ADM.run_as_daemon, h]
  · intro envs cfgDisk intr ss k fuel e applied calls h
    simp [Audamo.run_as_daemon, h]
  · intro envs cfgDisk intr args config k fuel applied calls h hi
    simp [ADM.run_as_daemon, h, hi]

/-- Witness for C5's amended statement: the concrete erroring tick
terminates the loop immediately. -/
theorem c5_amended_only_interrupt_caught_witness :
    ADM.run_as_daemon (fun _ => envBase) (fun _ => cfgTimeB) intrNever argsNoneB
        cfgBadTimeB 0 (4 + 1) =
      ([DEvent.tick 0 none], .crashed 0 .parseError) :=
  c5_amended_only_interrupt_caught.1 (fun _ => envBase) (fun _ => cfgTimeB) intrNever
    argsNoneB cfgBadTimeB 0 4 .parseError none [] rfl

/-- The on-disk default config file over time: sunrise 06:00 at tick 0,
edited to 07:00 from tick 1 on. -/
def cfgDiskEdited : Nat → ADM.Config :=
  fun k => if k = 0 then cfgTimeB else { cfgTimeB with sunrise := "07:00" }

/-- An environment whose local clock reads 06:30. -/
def envAt630 : Env := { envBase with now := ⟨6, 30, 0⟩ }

/-- Counterexample to C6: the auto_dark_mode daemon is started with the
06:00-18:00 configuration; between tick 0 and tick 1 the on-disk file is
edited to sunrise 07:00, under which the decision at 06:30 is DARK — yet
tick 1 still applies LIGHT, because the loop never re-reads the file. -/
theorem c6_counterexample_no_reload :
    (ADM.run_as_daemon (fun _ => envAt630) cfgDiskEdited intrNever argsNoneB
        cfgTimeB 0 2).1 =
      [DEvent.tick 0 (some Theme.LIGHT), .sleep 600,
       .tick 1 (some Theme.LIGHT), .sleep 600] ∧
    (cfgDiskEdited 1).sunrise = "07:00" ∧
    envAt630.parseHM "07:00" = some ⟨7, 0, 0⟩ ∧
    chooseTheme ⟨7, 0, 0⟩ ⟨18, 0, 0⟩ ⟨6, 30, 0⟩ = Theme.DARK := by
  refine ⟨rfl, rfl, rfl, rfl⟩

/-- C6 amended: the auto_dark_mode daemon never re-reads configuration —
its behaviour is identical for any two histories of the on-disk file, so
edits never take effect within a run; the audamo daemon does begin every
tick it executes with a fresh `load_config(None)` read of the
default-path file, deciding that tick from the tick's on-disk content
(though a --config path given at startup is ignored by the reload, and
the sleep defect of C7 prevents any tick after the first). -/
theorem c6_amended_reload_behavior :
    (∀ envs d1 d2 intr args config k fuel,
      ADM.run_as_daemon envs d1 intr args config k fuel =
        ADM.run_as_daemon envs d2 intr args config k fuel) ∧
    (∀ envs cfgDisk intr ss k fuel,
      (Audamo.run_as_daemon envs cfgDisk intr ss k (fuel + 1)).1.take 2 =
        [DEvent.reload k,
         DEvent.tick k (Audamo.set_theme_once (envs k) (cfgDisk k)).2.1]) := by
  constructor
  · intro envs d1 d2 intr args config k fuel
    induction fuel generalizing k with
    | zero => rfl
    | succ n ih =>
      simp only [ADM.run_as_daemon]
      rcases h : ADM.set_theme_once (envs k) args config with ⟨r, applied, calls⟩
      cases r with
      | error e => rfl
      | ok u =>
        cases hi : intr k with
        | true => rfl
        | false => simp [ih]
  · intro envs cfgDisk intr ss k fuel
    simp only [Audamo.run_as_daemon]
    rcases h : Audamo.set_theme_once (envs k) (cfgDisk k) with ⟨r, applied, calls⟩
    cases r with
    | error e => rfl
    | ok u =>
      cases hb : bumpSleepSeconds ss with
      | error e => rfl
      | ok s =>
        cases hi : intr k with
        | true => rfl
        | false => rfl

/-- A constant on-disk history for the audamo daemon. -/
def cfgDiskTimeA : Nat → Audamo.Config := fun _ => cfgTimeA

/-- C7: evaluation of the audamo daemon at its failing input.  The first
tick evaluates immediately and succeeds (LIGHT is applied at 12:00), but
the loop then crashes with UnboundLocalError at `sleep_seconds += 60 *
10` (audamo.py line 344: the local is never initialised), so no second
tick and no sleep ever happen — while the auto_dark_mode daemon does
evaluate immediately and sleep the fixed 600 seconds between ticks, as
the claim describes. -/
theorem c7_daemon_first_tick_then_crash :
    Audamo.run_as_daemon (fun _ => envBase) cfgDiskTimeA intrNever none 0 5 =
      ([DEvent.reload 0, DEvent.tick 0 (some Theme.LIGHT)], .crashed 0 .unboundLocal) ∧
    (ADM.run_as_daemon (fun _ => envBase) (fun _ => cfgTimeB) intrNever argsNoneB
        cfgTimeB 0 3).1 =
      [DEvent.tick 0 (some Theme.LIGHT), .sleep 600,
       .tick 1 (some Theme.LIGHT), .sleep 600,
       .tick 2 (some Theme.LIGHT), .sleep 600] := by
  exact ⟨rfl, rfl⟩

/-- An audamo configuration with an invalid mode string. -/
def cfgBadModeA : Audamo.Config :=
  { cfgTimeA with general := { cfgTimeA.general with mode := "banana" } }

/-- An auto_dark_mode configuration with an invalid mode string. -/
def cfgBadModeB : ADM.Config := { cfgTimeB with mode := "banana" }

/-- Counterexample to C8: with an invalid mode and no overrides,
auto_dark_mode's `set_theme_once` falls through every branch and returns
normally — no configuration error is raised (the result is `ok`, not an
error), no decision is made and no call happens. -/
theorem c8_counterexample_silent_fallthrough :
    ADM.set_theme_once envBase argsNoneB cfgBadModeB = (.ok (), none, []) ∧
    cfgBadModeB.mode = "banana" ∧
    (ADM.set_theme_once envBase argsNoneB cfgBadModeB).1 ≠
      .error (.invalidMode "banana") := by
  refine ⟨rfl, rfl, ?_⟩
  intro h
  have h2 : (Except.ok () : Except Err Unit) = .error (.invalidMode "banana") := h
  cases h2

/-- C8 amended: for a mode that is neither "time" nor "location" and no
override, audamo raises `ValueError(Invalid mode)` with no decision, no
applier invocation and no external call — but auto_dark_mode silently
does nothing: it returns without error, decision or call. -/
theorem c8_amended_invalid_mode (env : Env) (cfg : Audamo.Config)
    (args : ADM.Args) (config : ADM.Config)
    (hA1 : cfg.general.mode ≠ "time") (hA2 : cfg.general.mode ≠ "location")
    (hB1 : config.mode ≠ "time") (hB2 : config.mode ≠ "location")
    (hl : args.light = false) (hd : args.dark = false)
    (ht : args.time = none) (hloc : args.location = none) :
    Audamo.set_theme_once env cfg =
      (.error (.invalidMode cfg.general.mode), none, []) ∧
    ADM.set_theme_once env args config = (.ok (), none, []) := by
  constructor
  · simp [Audamo.set_theme_once, Audamo.get_sunrise_sunset, hA1, hA2]
  · simp [ADM.set_theme_once, hl, hd, ht, hloc, hB1, hB2]

/-- Witness for C8's amended statement at the concrete invalid-mode
configurations. -/
theorem c8_amended_invalid_mode_witness :
    Audamo.set_theme_once envBase cfgBadModeA =
      (.error (.invalidMode cfgBadModeA.general.mode), none, []) ∧
    ADM.set_theme_once envBase argsNoneB cfgBadModeB = (.ok (), none, []) :=
  c8_amended_invalid_mode envBase cfgBadModeA argsNoneB cfgBadModeB
    (by decide) (by decide) (by decide) (by decide) rfl rfl rfl rfl

theorem ADM.resolve_location_cli (env : Env) (args : Args) (config : Config)
    (lat lon : Int) (h : args.location = some (lat, lon)) :
    resolve_location env args config =
      (.ok (lat, lon, env.tzLookup lat lon), [.tzLookup lat lon]) := by
  unfold resolve_location
  rw [h]
  simp [location_to_timezone]

theorem ADM.resolve_location_cfg (env : Env) (args : Args) (config : Config)
    (lat lon : Int) (h : args.location = none)
    (h1 : config.latitude ≠ "") (h2 : config.longitude ≠ "")
    (hp1 : env.parseCoord config.latitude = some lat)
    (hp2 : env.parseCoord config.longitude = some lon) :
    resolve_location env args config =
      (.ok (lat, lon, env.tzLookup lat lon), [.tzLookup lat lon]) := by
  unfold resolve_location
  rw [h, if_pos ⟨h1, h2⟩, hp1, hp2]
  simp [location_to_timezone]

theorem ADM.resolve_location_auto (env : Env) (args : Args) (config : Config)
    (lat lon : Int) (tz : String) (h : args.location = none)
    (hmiss : config.latitude = "" ∨ config.longitude = "")
    (hip : env.ipinfo = .ok (lat, lon, tz)) :
    resolve_location env args config = (.ok (lat, lon, tz), [.geolocate]) := by
  have hcond : ¬(config.latitude ≠ "" ∧ config.longitude ≠ "") := by
    rcases hmiss with h1 | h1 <;> simp [h1]
  unfold resolve_location
  rw [h, if_neg hcond, hip]

/-- C9 amended: in auto_dark_mode the claim holds — a timezone is derived
for the resolved location (by timezonefinder for CLI or config
coordinates, or returned by the geolocation lookup) and the solar
computation is invoked with exactly that timezone and the current date in
it, so its sunrise/sunset results are expressed in it.  In audamo,
however, no timezone is ever derived for a location evaluation: every
solar call it makes passes neither a tzinfo nor a date argument, so the
returned instants are UTC instants regardless of the location. -/
theorem c9_amended_timezone_derivation :
    (∀ env lat lon tzStr, (env : Env).knownTz tzStr = true →
      (ADM.get_sunrise_sunset env lat lon tzStr).2 =
        [.solar lat lon (some tzStr) (some (env.todayIn tzStr))] ∧
      solarResultTz (some tzStr) = tzStr) ∧
    (∀ env args config lat lon, (args : ADM.Args).location = some (lat, lon) →
      env.knownTz (env.tzLookup lat lon) = true →
      (ADM.set_theme_from_location env args config).2.2.take 2 =
        [.tzLookup lat lon,
         .solar lat lon (some (env.tzLookup lat lon))
           (some (env.todayIn (env.tzLookup lat lon)))]) ∧
    (∀ env args config lat lon, (args : ADM.Args).location = none →
      config.latitude ≠ "" → config.longitude ≠ "" →
      env.parseCoord config.latitude = some lat →
      env.parseCoord config.longitude = some lon →
      env.knownTz (env.tzLookup lat lon) = true →
      (ADM.set_theme_from_location env args config).2.2.take 2 =
        [.tzLookup lat lon,
         .solar lat lon (some (env.tzLookup lat lon))
           (some (env.todayIn (env.tzLookup lat lon)))]) ∧
    (∀ env args config lat lon tzStr, (args : ADM.Args).location = none →
      (config.latitude = "" ∨ config.longitude = "") →
      env.ipinfo = .ok (lat, lon, tzStr) → env.knownTz tzStr = true →
      (ADM.set_theme_from_location env args config).2.2.take 2 =
        [.geolocate, .solar lat lon (some tzStr) (some (env.todayIn tzStr))]) ∧
    (∀ env cfg la lo tzArg dateArg,
      ExtCall.solar la lo tzArg dateArg ∈
        (Audamo.get_sunrise_sunset_from_location env cfg).2 →
      tzArg = none ∧ dateArg = none ∧ solarResultTz tzArg = "UTC") := by
  have hwindow : ∀ env lat lon tzStr, (env : Env).knownTz tzStr = true →
      ∀ res calls2, ADM.get_sunrise_sunset env lat lon tzStr = (res, calls2) →
      calls2 = [ExtCall.solar lat lon (some tzStr) (some (env.todayIn tzStr))] := by
    intro env lat lon tzStr hk res calls2 h
    unfold ADM.get_sunrise_sunset at h
    rw [hk] at h
    simp only [if_true] at h
    cases hs : env.sun lat lon (some tzStr) (some (env.todayIn tzStr)) with
    | ok w =>
      rw [hs] at h
      cases h
      rfl
    | error e =>
      rw [hs] at h
      cases h
      rfl
  have hloc : ∀ env args config lat lon tzStr c,
      ADM.resolve_location env args config = (.ok (lat, lon, tzStr), [c]) →
      (env : Env).knownTz tzStr = true →
      (ADM.set_theme_from_location env args config).2.2.take 2 =
        [c, ExtCall.solar lat lon (some tzStr) (some (env.todayIn tzStr))] := by
    intro env args config lat lon tzStr c hres hk
    unfold ADM.set_theme_from_location
    rw [hres]
    rcases hg : ADM.get_sunrise_sunset env lat lon tzStr with ⟨res, calls2⟩
    have h2 := hwindow env lat lon tzStr hk res calls2 hg
    subst h2
    cases res with
    | error e => simp [hk, hg]
    | ok w =>
      rcases w with ⟨sunrise, sunset⟩
      rcases hst : ADM.set_theme env (chooseTheme sunrise sunset (env.nowIn tzStr)) config
        with ⟨r, calls3⟩
      simp [hk, hg, hst]
  refine ⟨?_, ?_, ?_, ?_, ?_⟩
  · intro env lat lon tzStr hk
    refine ⟨?_, rfl⟩
    rcases hg : ADM.get_sunrise_sunset env lat lon tzStr with ⟨res, calls2⟩
    exact hwindow env lat lon tzStr hk res calls2 hg
  · intro env args config lat lon h hk
    exact hloc env args config lat lon (env.tzLookup lat lon) (.tzLookup lat lon)
      (ADM.resolve_location_cli env args config lat lon h) hk
  · intro env args config lat lon h h1 h2 hp1 hp2 hk
    exact hloc env args config lat lon (env.tzLookup lat lon) (.tzLookup lat lon)
      (ADM.resolve_location_cfg env args config lat lon h h1 h2 hp1 hp2) hk
  · intro env args config lat lon tzStr h hmiss hip hk
    exact hloc env args config lat lon tzStr .geolocate
      (ADM.resolve_location_auto env args config lat lon tzStr h hmiss hip) hk
  · intro env cfg la lo tzArg dateArg hmem
    unfold Audamo.get_sunrise_sunset_from_location at hmem
    by_cases hmiss : Audamo.lat_lon_is_missing cfg = true
    · rw [hmiss] at hmem
      cases hip : env.ipinfo with
      | ok v =>
        rcases v with ⟨lat, ⟨lon, tz⟩⟩
        cases hs : env.sun lat lon none none with
        | ok w =>
          simp [hip, hs] at hmem
          rcases hmem with ⟨rfl, rfl, rfl, rfl⟩
          exact ⟨rfl, rfl, rfl⟩
        | error e =>
          simp [hip, hs] at hmem
          rcases hmem with ⟨rfl, rfl, rfl, rfl⟩
          exact ⟨rfl, rfl, rfl⟩
      | error e => simp [hip] at hmem
    · rw [Bool.not_eq_true] at hmiss
      rw [hmiss] at hmem
      cases hp1 : env.parseCoord cfg.general.latitude with
      | none => simp [hp1] at hmem
      | some lat =>
        cases hp2 : env.parseCoord cfg.general.longitude with
        | none => simp [hp1, hp2] at hmem
        | some lon =>
          cases hs : env.sun lat lon none none with
          | ok w =>
            simp [hp1, hp2, hs] at hmem
            rcases hmem with ⟨rfl, rfl, rfl, rfl⟩
            exact ⟨rfl, rfl, rfl⟩
          | error e =>
            simp [hp1, hp2, hs] at hmem
            rcases hmem with ⟨rfl, rfl, rfl, rfl⟩
            exact ⟨rfl, rfl, rfl⟩

/-- Counterexample to C9: an audamo location evaluation with a Berlin
config issues exactly one solar call, with no timezone and no date
argument, so its results are UTC instants — not instants in a timezone
derived for the location (the lookup would give "Europe/Berlin"). -/
theorem c9_counterexample_no_timezone_derived :
    (Audamo.get_sunrise_sunset_from_location envBase cfgLocA).2 =
      [ExtCall.solar 52 13 none none] ∧
    solarResultTz none = "UTC" ∧
    envBase.tzLookup 52 13 = "Europe/Berlin" ∧
    ("UTC" : String) ≠ "Europe/Berlin" := by
  refine ⟨rfl, rfl, rfl, by decide⟩

/-- Witness for C9's amended statement: the auto_dark_mode location path
at concrete CLI coordinates performs the timezone lookup and passes the
looked-up timezone and the current date to the solar computation. -/
theorem c9_amended_timezone_derivation_witness :
    (ADM.set_theme_from_location envBase ⟨false, false, none, some (52, 13), false⟩
        cfgTimeB).2.2.take 2 =
      [.tzLookup 52 13, .solar 52 13 (some "Europe/Berlin") (some "2026-10-12")] :=
  c9_amended_timezone_derivation.2.1 envBase ⟨false, false, none, some (52, 13), false⟩
    cfgTimeB 52 13 rfl rfl

/-- C10 amended: in audamo, `set_theme` overwrites the marker file with
exactly the applied theme's label on every successful apply, and performs
no marker write when any setting step or the custom script raises; in
auto_dark_mode, `set_theme` contains no marker write at all — nothing is
recorded even on a fully successful apply. -/
theorem c10_amended_marker_behavior :
    (∀ env cfg t calls, Audamo.set_theme env cfg t = (.ok (), calls) →
      markerWrites calls = [(Audamo.markerPath, t.value)]) ∧
    (∀ env cfg t e calls, Audamo.set_theme env cfg t = (.error e, calls) →
      markerWrites calls = []) ∧
    (∀ env t config, markerWrites (ADM.set_theme env t config).2 = []) := by
  refine ⟨?_, ?_, ?_⟩
  · intro env cfg t calls h
    rcases Audamo.set_theme_cases env cfg t with ⟨e, calls2, h2, hm, _⟩ | ⟨calls2, h2, hm, _⟩
    · rw [h] at h2
      injection h2 with ha hb
      cases ha
    · rw [h] at h2
      injection h2 with ha hb
      rw [hb]
      exact hm
  · intro env cfg t e calls h
    rcases Audamo.set_theme_cases env cfg t with ⟨e2, calls2, h2, hm, _⟩ | ⟨calls2, h2, hm, _⟩
    · rw [h] at h2
      injection h2 with ha hb
      rw [hb]
      exact hm
    · rw [h] at h2
      injection h2 with ha hb
      cases ha
  · intro env t config
    exact (ADM.set_theme_no_marker_no_loc_solar env t config).1

/-- Counterexample to C10: a fully successful auto_dark_mode apply —
three gsettings commands, all succeeding — performs no file write at
all: the marker is not overwritten with the applied theme's label. -/
theorem c10_counterexample_no_marker_write :
    ADM.set_theme envBase Theme.LIGHT cfgTimeB =
      (.ok (), [.runCmd (.gtkTheme "Adwaita"), .runCmd (.wmTheme "Adwaita"),
        .runCmd (.colorScheme .LIGHT)]) ∧
    markerWrites (ADM.set_theme envBase Theme.LIGHT cfgTimeB).2 = [] := by
  exact ⟨rfl, rfl⟩

/-- Witness for C10's amended statement: a successful audamo apply writes
exactly the marker file with the theme label. -/
theorem c10_amended_marker_behavior_witness :
    markerWrites [ExtCall.runCmd (.gtkTheme "Adwaita"), .runCmd (.wmTheme "Adwaita"),
      .runCmd (.colorScheme .LIGHT), .runCmd (.iconTheme "Papirus"),
      .runCmd (.cursorTheme "Breeze"), .writeFile Audamo.markerPath "light"] =
      [(Audamo.markerPath, "light")] :=
  c10_amended_marker_behavior.1 envBase cfgTimeA Theme.LIGHT _ rfl
